import Mathlib

/-!
# mTLS greeter: server and client

A shallow embedding of `server/main.go` and `client/main.go`.

Both programs are straight-line sequences of calls into the Go standard
library and gRPC, each followed by an error check.  They are embedded as
programs in a small monad `Go` that records every call as an `Event`, keeps the
stack of deferred calls of `main`, and stops at `log.Fatal`/`log.Fatalf`
(which print and call `os.Exit(1)`).  The outcome of every call into the
outside world (file system, network, peer) is read from a `World`.
-/

set_option linter.dupNamespace false

namespace MTLS

/-! ## Go values -/

/-- Go `error` value: the interface exposes one method, `Error() string`. -/
structure GoError where
  Error : String
deriving DecidableEq, Repr

/-- Go `[]byte`. -/
abbrev Bytes := List Nat

/-- Go `context.Context`, as far as the programs build one:
`context.Background()` has no deadline, `context.WithTimeout` adds one
(a `time.Duration`, in nanoseconds). -/
structure Context where
  timeout : Option Nat
deriving DecidableEq, Repr

/-- Go `time.Second`, a `time.Duration` counted in nanoseconds. -/
def time.Second : Nat := 1000000000

/-- Go `context.Background()`. -/
def context.Background : Context := { timeout := none }

/-! ## The proto package -/

/-- Modelled from the spec: the generated package `proto` is not among the
sources; the request of the single call carries one string-valued field. -/
structure HelloRequest where
  Name : String
deriving DecidableEq, Repr

/-- Modelled from the spec: the generated package `proto` is not among the
sources; the reply of the single call carries one string-valued field. -/
structure HelloReply where
  Message : String
deriving DecidableEq, Repr

/-- Modelled from the spec: getter of the request's string field, as generated
for Go (a nil request reads as the empty string). -/
def HelloRequest.GetName : Option HelloRequest → String
  | none => ""
  | some r => r.Name

/-- Modelled from the spec: getter of the reply's string field, as generated
for Go (a nil reply reads as the empty string). -/
def HelloReply.GetMessage : Option HelloReply → String
  | none => ""
  | some r => r.Message

/-! ## server/main.go: the handler -/

/-- The type `server` of server/main.go: a struct with no fields of its own
(it embeds `pb.UnimplementedGreeterServer`). -/
structure server where
  mk ::
deriving DecidableEq, Repr

/-- What one invocation of a handler does: the lines it logs and the
`(*pb.HelloReply, error)` pair it returns. -/
structure HandlerResult where
  logged : List String
  reply : Option HelloReply
  err : Option GoError
deriving DecidableEq, Repr

/-- The method `(s *server) SayHello(ctx, in)` of server/main.go. -/
def server.SayHello (_s : server) (_ctx : Context) (req : Option HelloRequest) : HandlerResult :=
  { logged := ["Received connection from client. Request name: " ++ HelloRequest.GetName req]
    reply := some { Message := "Hello " ++ HelloRequest.GetName req ++ ", connection is secure!" }
    err := none }

/-- Go `len(s)` of a string: the number of bytes of its UTF-8 encoding. -/
def goLen (s : String) : Nat := s.utf8ByteSize

/-- The reply message `SayHello` computes for a request named `n`. -/
def replyMessage (n : String) : String :=
  HelloReply.GetMessage (server.SayHello server.mk context.Background (some { Name := n })).reply

/-! ## crypto/tls, crypto/x509, encoding/pem -/

/-- Go `tls.Certificate`: a certificate chain (DER) with its private key. -/
structure Certificate where
  Certificate : List Bytes
  PrivateKey : Bytes
deriving DecidableEq, Repr

/-- Go `x509.Certificate`, identified by its raw DER bytes. -/
structure X509Certificate where
  Raw : Bytes
deriving DecidableEq, Repr

/-- Go `pem.Block`. -/
structure PemBlock where
  blockType : String
  Headers : List (String × String)
  Bytes : Bytes
deriving DecidableEq, Repr

/-- Go `x509.CertPool`: a set of certificates. -/
structure CertPool where
  certs : List X509Certificate
deriving DecidableEq, Repr

/-- Go `x509.NewCertPool()`: a new, empty pool. -/
def x509.NewCertPool : CertPool := { certs := [] }

/-- Go `(*CertPool).AddCert`: a certificate already in the pool is not added
a second time. -/
def CertPool.AddCert (s : CertPool) (cert : X509Certificate) : CertPool :=
  if cert ∈ s.certs then s else { certs := s.certs ++ [cert] }

/-- The loop of Go `(*CertPool).AppendCertsFromPEM` over the PEM blocks that
`pem.Decode` finds one after the other: a block that is not a `CERTIFICATE`,
has headers, or does not parse is skipped; every other block's certificate is
added to the pool and the result `ok` becomes true. -/
def CertPool.appendBlocks (parse : Bytes → Except GoError X509Certificate) :
    CertPool → List PemBlock → CertPool × Bool
  | s, [] => (s, false)
  | s, block :: rest =>
    if block.blockType ≠ "CERTIFICATE" ∨ block.Headers ≠ [] then
      CertPool.appendBlocks parse s rest
    else
      match parse block.Bytes with
      | .error _ => CertPool.appendBlocks parse s rest
      | .ok cert => ((CertPool.appendBlocks parse (s.AddCert cert) rest).1, true)

/-- Go `tls.ClientAuthType`, in the order of its constants. -/
inductive ClientAuthType where
  | NoClientCert
  | RequestClientCert
  | RequireAnyClientCert
  | VerifyClientCertIfGiven
  | RequireAndVerifyClientCert
deriving DecidableEq, Repr

/-- Go `tls.Config`, the fields the two programs set and `InsecureSkipVerify`;
a field a composite literal leaves out has Go's zero value. -/
structure TLSConfig where
  Certificates : List Certificate := []
  RootCAs : Option CertPool := none
  ClientCAs : Option CertPool := none
  ClientAuth : ClientAuthType := ClientAuthType.NoClientCert
  ServerName : String := ""
  InsecureSkipVerify : Bool := false
deriving DecidableEq, Repr

/-! ## gRPC objects -/

/-- Result of `credentials.NewTLS(c)`: transport credentials that carry `c`. -/
structure TransportCredentials where
  config : TLSConfig
deriving DecidableEq, Repr

/-- Result of `grpc.NewServer(grpc.Creds(creds))`, with the services
registered on it. -/
structure GrpcServer where
  creds : TransportCredentials
  registered : List server
deriving DecidableEq, Repr

/-- Result of `net.Listen(network, address)`. -/
structure Listener where
  network : String
  address : String
deriving DecidableEq, Repr

/-- Result of `grpc.NewClient(target, grpc.WithTransportCredentials(creds))`. -/
structure ClientConn where
  target : String
  creds : TransportCredentials
deriving DecidableEq, Repr

/-! ## Processes -/

/-- One call a program makes, with its arguments. -/
inductive Event where
  | LoadX509KeyPair (certFile keyFile : String)
  | NewCertPool
  | ReadFile (name : String)
  | AppendCertsFromPEM (pemCerts : Bytes)
  | NewTLS (c : TLSConfig)
  | NewServer (creds : TransportCredentials)
  | RegisterGreeterServer (s : GrpcServer) (srv : server)
  | Listen (network address : String)
  | Serve (s : GrpcServer) (lis : Listener)
  | NewClient (target : String) (creds : TransportCredentials)
  | NewGreeterClient (conn : ClientConn)
  | Close (conn : ClientConn)
  | WithTimeout (parent : Context) (timeout : Nat)
  | cancel (ctx : Context)
  | SayHello (conn : ClientConn) (ctx : Context) (req : HelloRequest)
  | Print (line : String)
  | Fatal (line : String)
deriving DecidableEq, Repr

/-- How a process ends: it exits with a status, or it stays inside a call that
never returns. -/
inductive Status where
  | exited (code : Nat)
  | blocked
deriving DecidableEq, Repr

/-- State of a running `main`: the calls made so far, and the stack of deferred
calls (the most recently deferred first). -/
structure GoState where
  trace : List Event
  deferred : List Event
deriving DecidableEq, Repr

/-- Result of running a piece of `main` from a state: it goes on with a value,
or the process has stopped. -/
inductive Step (α : Type) where
  | next (a : α) (s : GoState)
  | stop (status : Status) (s : GoState)

/-- A piece of a Go `main`. -/
def Go (α : Type) : Type := GoState → Step α

/-- Sequencing: what follows a stopped process does not run. -/
def Go.bind {α β : Type} (m : Go α) (f : α → Go β) : Go β := fun s =>
  match m s with
  | Step.next a s1 => f a s1
  | Step.stop status s1 => Step.stop status s1

instance : Monad Go where
  pure a := fun s => Step.next a s
  bind := Go.bind

/-- A call that returns `r`: it is recorded in the trace. -/
def call {α : Type} (e : Event) (r : α) : Go α := fun s =>
  Step.next r { s with trace := s.trace ++ [e] }

/-- Go `defer e`: the call is pushed on the stack of deferred calls. -/
def defer (e : Event) : Go Unit := fun s =>
  Step.next () { s with deferred := e :: s.deferred }

/-- Go `log.Fatal` / `log.Fatalf`: prints the line, then `os.Exit(1)`; the
program terminates immediately and deferred functions are not run. -/
def log.Fatal {α : Type} (line : String) : Go α := fun s =>
  Step.stop (Status.exited 1) { s with trace := s.trace ++ [Event.Fatal line] }

/-- Go `log.Printf` / `log.Println`. -/
def log.Print (line : String) : Go Unit := call (Event.Print line) ()

/-- A call that never returns: it is recorded, and the process stays in it. -/
def callForever {α : Type} (e : Event) : Go α := fun s =>
  Step.stop Status.blocked { s with trace := s.trace ++ [e] }

/-- A finished run of a program. -/
structure Run where
  trace : List Event
  status : Status
deriving DecidableEq, Repr

/-- Runs `main` in a new process.  When `main` returns, its deferred calls run,
the last deferred first, and the process exits with status 0. -/
def runMain (main : Go Unit) : Run :=
  match main { trace := [], deferred := [] } with
  | Step.next _ s => { trace := s.trace ++ s.deferred, status := Status.exited 0 }
  | Step.stop status s => { trace := s.trace, status := status }

/-! ## The outside world -/

/-- Outcomes of the calls that leave the program: the file system, the parsers
of the standard library, the network and the peer. -/
structure World where
  /-- Go `tls.LoadX509KeyPair(certFile, keyFile)`. -/
  LoadX509KeyPair : String → String → Except GoError Certificate
  /-- Go `os.ReadFile(name)`. -/
  ReadFile : String → Except GoError Bytes
  /-- The PEM blocks repeated `pem.Decode` finds in a byte string. -/
  pemBlocks : Bytes → List PemBlock
  /-- Go `x509.ParseCertificate(der)`. -/
  ParseCertificate : Bytes → Except GoError X509Certificate
  /-- Go `net.Listen(network, address)`. -/
  Listen : String → String → Except GoError Listener
  /-- Go `(*grpc.Server).Serve(lis)`: `none` when it never returns, else the
  error it returns (possibly nil). -/
  Serve : GrpcServer → Listener → Option (Option GoError)
  /-- Go `grpc.NewClient(target, opts...)`. -/
  NewClient : String → TransportCredentials → Except GoError ClientConn
  /-- The call `SayHello` on the client stub, over the connection. -/
  SayHello : ClientConn → Context → HelloRequest → Except GoError HelloReply

/-- Go `(*CertPool).AppendCertsFromPEM(pemCerts)`: the pool afterwards, and
whether any certificate was parsed. -/
def CertPool.AppendCertsFromPEM (w : World) (s : CertPool) (pemCerts : Bytes) : CertPool × Bool :=
  CertPool.appendBlocks w.ParseCertificate s (w.pemBlocks pemCerts)

/-- Go `context.WithTimeout(parent, timeout)`. -/
def context.WithTimeout (_parent : Context) (timeout : Nat) : Context :=
  { timeout := some timeout }

/-! ## server/main.go: main -/

/-- The `tls.Config` literal of server/main.go (step 3 of `main`). -/
def serverConfig (serverCert : Certificate) (certPool : CertPool) : TLSConfig :=
  { Certificates := [serverCert]
    ClientCAs := some certPool
    ClientAuth := ClientAuthType.RequireAndVerifyClientCert }

/-- The function `main` of server/main.go. -/
def serverMain (w : World) : Go Unit := do
  -- 1. Load the Server's Certificate and Private Key
  let serverCert ←
    match ← call (Event.LoadX509KeyPair "certs/server.crt" "certs/server.key")
        (w.LoadX509KeyPair "certs/server.crt" "certs/server.key") with
    | Except.error err => log.Fatal ("failed to load server key pair: " ++ err.Error)
    | Except.ok cert => pure cert
  -- 2. Load the CA Certificate to verify clients
  let certPool ← call Event.NewCertPool x509.NewCertPool
  let ca ←
    match ← call (Event.ReadFile "certs/ca.crt") (w.ReadFile "certs/ca.crt") with
    | Except.error err => log.Fatal ("failed to read ca cert: " ++ err.Error)
    | Except.ok data => pure data
  let (certPool, ok) ← call (Event.AppendCertsFromPEM ca) (certPool.AppendCertsFromPEM w ca)
  if !ok then
    log.Fatal "failed to append ca certs"
  -- 3. Create the TLS Credentials
  let config := serverConfig serverCert certPool
  let creds ← call (Event.NewTLS config) (TransportCredentials.mk config)
  -- 4. Create the gRPC Server with these credentials
  let s ← call (Event.NewServer creds) (GrpcServer.mk creds [])
  let s ← call (Event.RegisterGreeterServer s server.mk) { s with registered := s.registered ++ [server.mk] }
  -- 5. Listen
  let lis ←
    match ← call (Event.Listen "tcp" ":50051") (w.Listen "tcp" ":50051") with
    | Except.error err => log.Fatal ("failed to listen: " ++ err.Error)
    | Except.ok lis => pure lis
  log.Print "mTLS Server listening on port 50051..."
  match w.Serve s lis with
  | none => callForever (Event.Serve s lis)
  | some none => call (Event.Serve s lis) ()
  | some (some err) => do
    call (Event.Serve s lis) ()
    log.Fatal ("failed to serve: " ++ err.Error)

/-! ## client/main.go: main -/

/-- The `tls.Config` literal of client/main.go (step 3 of `main`). -/
def clientConfig (clientCert : Certificate) (certPool : CertPool) : TLSConfig :=
  { Certificates := [clientCert]
    RootCAs := some certPool
    ServerName := "localhost" }

/-- The function `main` of client/main.go. -/
def clientMain (w : World) : Go Unit := do
  -- 1. Load the Client's Certificate and Private Key
  let clientCert ←
    match ← call (Event.LoadX509KeyPair "certs/client.crt" "certs/client.key")
        (w.LoadX509KeyPair "certs/client.crt" "certs/client.key") with
    | Except.error err => log.Fatal ("failed to load client key pair: " ++ err.Error)
    | Except.ok cert => pure cert
  -- 2. Load the CA Certificate to verify the Server
  let certPool ← call Event.NewCertPool x509.NewCertPool
  let ca ←
    match ← call (Event.ReadFile "certs/ca.crt") (w.ReadFile "certs/ca.crt") with
    | Except.error err => log.Fatal ("failed to read ca cert: " ++ err.Error)
    | Except.ok data => pure data
  let (certPool, ok) ← call (Event.AppendCertsFromPEM ca) (certPool.AppendCertsFromPEM w ca)
  if !ok then
    log.Fatal "failed to append ca certs"
  -- 3. Create the TLS Credentials
  let config := clientConfig clientCert certPool
  let creds ← call (Event.NewTLS config) (TransportCredentials.mk config)
  -- 4. Create the gRPC Client Connection
  let conn ←
    match ← call (Event.NewClient "localhost:50051" creds) (w.NewClient "localhost:50051" creds) with
    | Except.error err => log.Fatal ("did not connect: " ++ err.Error)
    | Except.ok conn => pure conn
  defer (Event.Close conn)
  let c ← call (Event.NewGreeterClient conn) conn
  -- 5. Call the RPC
  let ctx := context.WithTimeout context.Background time.Second
  call (Event.WithTimeout context.Background time.Second) ()
  defer (Event.cancel ctx)
  let req : HelloRequest := { Name := "mTLS World" }
  let r ←
    match ← call (Event.SayHello c ctx req) (w.SayHello c ctx req) with
    | Except.error err => log.Fatal ("could not greet: " ++ err.Error)
    | Except.ok r => pure r
  log.Print ("Server Response: " ++ HelloReply.GetMessage (some r))

/-- Run of the server program in a world. -/
def runServer (w : World) : Run := runMain (serverMain w)

/-- Run of the client program in a world. -/
def runClient (w : World) : Run := runMain (clientMain w)

/-! ## Concrete worlds -/

/-- An error value with the given text. -/
def errorf (text : String) : GoError := { Error := text }

/-- The identity every key pair file holds in the concrete worlds. -/
def sampleCert : Certificate := { Certificate := [[48, 130]], PrivateKey := [7] }

/-- A CA file with two certificates and, between them, a block that is not a
certificate. -/
def sampleBlocks : List PemBlock :=
  [ { blockType := "CERTIFICATE", Headers := [], Bytes := [1] },
    { blockType := "PRIVATE KEY", Headers := [], Bytes := [2] },
    { blockType := "CERTIFICATE", Headers := [], Bytes := [3] } ]

/-- A world in which every file loads, the port is free and the peer answers
as the handler of server/main.go does; `Serve` never returns. -/
def goodWorld : World where
  LoadX509KeyPair := fun _ _ => Except.ok sampleCert
  ReadFile := fun _ => Except.ok [45, 45]
  pemBlocks := fun _ => sampleBlocks
  ParseCertificate := fun der => Except.ok { Raw := der }
  Listen := fun network address => Except.ok { network := network, address := address }
  Serve := fun _ _ => none
  NewClient := fun target creds => Except.ok { target := target, creds := creds }
  SayHello := fun _ ctx req =>
    match (server.SayHello server.mk ctx (some req)).reply with
    | some r => Except.ok r
    | none => Except.error (errorf "rpc error: code = Internal desc = no reply")

/-- The good world, except that the key pair files do not load. -/
def noKeyPairWorld : World :=
  { goodWorld with
    LoadX509KeyPair := fun _ _ => Except.error (errorf "open: no such file or directory") }

/-- The good world, except that the CA file cannot be read. -/
def noCAFileWorld : World :=
  { goodWorld with
    ReadFile := fun _ => Except.error (errorf "open certs/ca.crt: no such file or directory") }

/-- The good world, except that the CA file holds no PEM block. -/
def emptyCAWorld : World :=
  { goodWorld with pemBlocks := fun _ => [] }

/-- The good world, except that the call gets no response within the deadline. -/
def deadlineWorld : World :=
  { goodWorld with
    SayHello := fun _ _ _ =>
      Except.error (errorf "rpc error: code = DeadlineExceeded desc = context deadline exceeded") }

/-- A CA file whose only block is a `CERTIFICATE` that parses, but carries a
PEM header. -/
def headerBlocks : List PemBlock :=
  [ { blockType := "CERTIFICATE", Headers := [("Comment", "root-A")], Bytes := [1] } ]

/-- The good world, except that the CA file is `headerBlocks`. -/
def headerWorld : World :=
  { goodWorld with pemBlocks := fun _ => headerBlocks }

/-- A CA file with one `CERTIFICATE` block without headers and one that
carries a PEM header; both parse. -/
def mixedBlocks : List PemBlock :=
  [ { blockType := "CERTIFICATE", Headers := [], Bytes := [1] },
    { blockType := "CERTIFICATE", Headers := [("Comment", "root-B")], Bytes := [3] } ]

/-- The good world, except that the CA file is `mixedBlocks`. -/
def mixedWorld : World :=
  { goodWorld with pemBlocks := fun _ => mixedBlocks }

/-! ## Traces of the load steps -/

/-- The calls of the server up to and including `net.Listen`, when the three
load steps succeed. -/
def serverSetup (ca : Bytes) (config : TLSConfig) : List Event :=
  [ Event.LoadX509KeyPair "certs/server.crt" "certs/server.key",
    Event.NewCertPool,
    Event.ReadFile "certs/ca.crt",
    Event.AppendCertsFromPEM ca,
    Event.NewTLS config,
    Event.NewServer { config := config },
    Event.RegisterGreeterServer { creds := { config := config }, registered := [] } server.mk,
    Event.Listen "tcp" ":50051" ]

/-- The gRPC server the server program serves with, for a TLS configuration. -/
def servingServer (config : TLSConfig) : GrpcServer :=
  { creds := { config := config }, registered := [server.mk] }

/-- The calls of the client up to and including `grpc.NewClient`, when the
three load steps succeed. -/
def clientSetup (ca : Bytes) (config : TLSConfig) : List Event :=
  [ Event.LoadX509KeyPair "certs/client.crt" "certs/client.key",
    Event.NewCertPool,
    Event.ReadFile "certs/ca.crt",
    Event.AppendCertsFromPEM ca,
    Event.NewTLS config,
    Event.NewClient "localhost:50051" { config := config } ]

/-- The context of the client's call. -/
def callContext : Context := context.WithTimeout context.Background time.Second

/-- The calls of the client from the stub's creation up to and including the
RPC, on a connection. -/
def clientCall (conn : ClientConn) : List Event :=
  [ Event.NewGreeterClient conn,
    Event.WithTimeout context.Background time.Second,
    Event.SayHello conn callContext { Name := "mTLS World" } ]

/-- Whether a call is one of the steps that follow the three load steps in
either program: everything except the load calls themselves and logging. -/
def Event.afterLoad : Event → Bool
  | Event.LoadX509KeyPair _ _ => false
  | Event.NewCertPool => false
  | Event.ReadFile _ => false
  | Event.AppendCertsFromPEM _ => false
  | Event.Print _ => false
  | Event.Fatal _ => false
  | Event.NewTLS _ => true
  | Event.NewServer _ => true
  | Event.RegisterGreeterServer _ _ => true
  | Event.Listen _ _ => true
  | Event.Serve _ _ => true
  | Event.NewClient _ _ => true
  | Event.NewGreeterClient _ => true
  | Event.Close _ => true
  | Event.WithTimeout _ _ => true
  | Event.cancel _ => true
  | Event.SayHello _ _ _ => true

/-! ## Lemmas: the certificate pool -/

theorem mem_AddCert (s : CertPool) (x cert : X509Certificate) :
    cert ∈ (s.AddCert x).certs ↔ cert ∈ s.certs ∨ cert = x := by
  unfold CertPool.AddCert
  split
  · rename_i h
    constructor
    · intro hc; exact Or.inl hc
    · rintro (hc | hc)
      · exact hc
      · subst hc; exact h
  · simp

theorem mem_appendBlocks (parse : Bytes → Except GoError X509Certificate)
    (blocks : List PemBlock) (s : CertPool) (cert : X509Certificate) :
    cert ∈ (CertPool.appendBlocks parse s blocks).1.certs ↔
      cert ∈ s.certs ∨ ∃ b ∈ blocks, b.blockType = "CERTIFICATE" ∧ b.Headers = [] ∧
        parse b.Bytes = Except.ok cert := by
  induction blocks generalizing s with
  | nil => simp [CertPool.appendBlocks]
  | cons b rest ih =>
    unfold CertPool.appendBlocks
    split
    · rename_i hskip
      rw [ih]
      have hb : ¬ (b.blockType = "CERTIFICATE" ∧ b.Headers = []) := by
        rintro ⟨h1, h2⟩
        rcases hskip with h | h
        · exact h h1
        · exact h h2
      constructor
      · rintro (h | ⟨b1, hb1, h⟩)
        · exact Or.inl h
        · exact Or.inr ⟨b1, List.mem_cons_of_mem _ hb1, h⟩
      · rintro (h | ⟨b1, hb1, h⟩)
        · exact Or.inl h
        · rcases List.mem_cons.1 hb1 with rfl | hb1
          · exact absurd ⟨h.1, h.2.1⟩ hb
          · exact Or.inr ⟨b1, hb1, h⟩
    · rename_i hkeep
      have hty : b.blockType = "CERTIFICATE" := by
        by_contra h; exact hkeep (Or.inl h)
      have hhd : b.Headers = [] := by
        by_contra h; exact hkeep (Or.inr h)
      split
      · rename_i e he
        rw [ih]
        constructor
        · rintro (h | ⟨b1, hb1, h⟩)
          · exact Or.inl h
          · exact Or.inr ⟨b1, List.mem_cons_of_mem _ hb1, h⟩
        · rintro (h | ⟨b1, hb1, h⟩)
          · exact Or.inl h
          · rcases List.mem_cons.1 hb1 with rfl | hb1
            · rw [he] at h; exact absurd h.2.2 (by simp)
            · exact Or.inr ⟨b1, hb1, h⟩
      · rename_i x hx
        show cert ∈ (CertPool.appendBlocks parse (s.AddCert x) rest).1.certs ↔ _
        rw [ih, mem_AddCert]
        constructor
        · rintro ((h | h) | ⟨b1, hb1, h⟩)
          · exact Or.inl h
          · exact Or.inr ⟨b, List.mem_cons_self _ _, hty, hhd, by rw [hx, h]⟩
          · exact Or.inr ⟨b1, List.mem_cons_of_mem _ hb1, h⟩
        · rintro (h | ⟨b1, hb1, h⟩)
          · exact Or.inl (Or.inl h)
          · rcases List.mem_cons.1 hb1 with rfl | hb1
            · rw [hx] at h
              exact Or.inl (Or.inr (Except.ok.inj h.2.2).symm)
            · exact Or.inr ⟨b1, hb1, h⟩

theorem appendBlocks_ok (parse : Bytes → Except GoError X509Certificate)
    (blocks : List PemBlock) (s : CertPool) :
    (CertPool.appendBlocks parse s blocks).2 = true ↔
      ∃ b ∈ blocks, b.blockType = "CERTIFICATE" ∧ b.Headers = [] ∧
        ∃ cert, parse b.Bytes = Except.ok cert := by
  induction blocks generalizing s with
  | nil => simp [CertPool.appendBlocks]
  | cons b rest ih =>
    unfold CertPool.appendBlocks
    split
    · rename_i hskip
      rw [ih]
      constructor
      · rintro ⟨b1, hb1, h⟩
        exact ⟨b1, List.mem_cons_of_mem _ hb1, h⟩
      · rintro ⟨b1, hb1, h⟩
        rcases List.mem_cons.1 hb1 with rfl | hb1
        · rcases hskip with hs | hs
          · exact absurd h.1 hs
          · exact absurd h.2.1 hs
        · exact ⟨b1, hb1, h⟩
    · rename_i hkeep
      have hty : b.blockType = "CERTIFICATE" := by
        by_contra h; exact hkeep (Or.inl h)
      have hhd : b.Headers = [] := by
        by_contra h; exact hkeep (Or.inr h)
      split
      · rename_i e he
        rw [ih]
        constructor
        · rintro ⟨b1, hb1, h⟩
          exact ⟨b1, List.mem_cons_of_mem _ hb1, h⟩
        · rintro ⟨b1, hb1, h⟩
          rcases List.mem_cons.1 hb1 with rfl | hb1
          · obtain ⟨_, _, c, hc⟩ := h
            rw [he] at hc; exact absurd hc (by simp)
          · exact ⟨b1, hb1, h⟩
      · rename_i x hx
        constructor
        · intro _
          exact ⟨b, List.mem_cons_self _ _, hty, hhd, x, hx⟩
        · intro _
          rfl

/-- A successful `AppendCertsFromPEM` leaves a pool with a certificate in it. -/
theorem appendBlocks_ok_ne_nil (parse : Bytes → Except GoError X509Certificate)
    (blocks : List PemBlock) (s : CertPool)
    (h : (CertPool.appendBlocks parse s blocks).2 = true) :
    (CertPool.appendBlocks parse s blocks).1.certs ≠ [] := by
  obtain ⟨b, hb, hty, hhd, cert, hc⟩ := (appendBlocks_ok parse blocks s).1 h
  have hmem : cert ∈ (CertPool.appendBlocks parse s blocks).1.certs :=
    (mem_appendBlocks parse blocks s cert).2 (Or.inr ⟨b, hb, hty, hhd, hc⟩)
  intro hnil
  rw [hnil] at hmem
  exact absurd hmem (List.not_mem_nil _)

/-! ## Lemmas: the runs of the server -/

theorem runServer_keyPair_error (w : World) (e : GoError)
    (h1 : w.LoadX509KeyPair "certs/server.crt" "certs/server.key" = Except.error e) :
    runServer w =
      { trace := [Event.LoadX509KeyPair "certs/server.crt" "certs/server.key",
          Event.Fatal ("failed to load server key pair: " ++ e.Error)]
        status := Status.exited 1 } := by
  simp [runServer, runMain, serverMain, bind, Go.bind, call, log.Fatal, h1]

theorem runServer_readFile_error (w : World) (cert : Certificate) (e : GoError)
    (h1 : w.LoadX509KeyPair "certs/server.crt" "certs/server.key" = Except.ok cert)
    (h2 : w.ReadFile "certs/ca.crt" = Except.error e) :
    runServer w =
      { trace := [Event.LoadX509KeyPair "certs/server.crt" "certs/server.key",
          Event.NewCertPool, Event.ReadFile "certs/ca.crt",
          Event.Fatal ("failed to read ca cert: " ++ e.Error)]
        status := Status.exited 1 } := by
  simp [runServer, runMain, serverMain, bind, Go.bind, call, log.Fatal, pure, h1, h2]

theorem runServer_append_failed (w : World) (cert : Certificate) (ca : Bytes)
    (h1 : w.LoadX509KeyPair "certs/server.crt" "certs/server.key" = Except.ok cert)
    (h2 : w.ReadFile "certs/ca.crt" = Except.ok ca)
    (h3 : (CertPool.AppendCertsFromPEM w x509.NewCertPool ca).2 = false) :
    runServer w =
      { trace := [Event.LoadX509KeyPair "certs/server.crt" "certs/server.key",
          Event.NewCertPool, Event.ReadFile "certs/ca.crt", Event.AppendCertsFromPEM ca,
          Event.Fatal "failed to append ca certs"]
        status := Status.exited 1 } := by
  simp [runServer, runMain, serverMain, bind, Go.bind, call, log.Fatal, pure, h1, h2, h3]

/-- When the three load steps succeed, the server makes the calls of
`serverSetup` with the configuration of step 3, and after them only logs and
serves with the server built from that configuration. -/
theorem runServer_loaded (w : World) (cert : Certificate) (ca : Bytes)
    (h1 : w.LoadX509KeyPair "certs/server.crt" "certs/server.key" = Except.ok cert)
    (h2 : w.ReadFile "certs/ca.crt" = Except.ok ca)
    (h3 : (CertPool.AppendCertsFromPEM w x509.NewCertPool ca).2 = true) :
    ∃ rest, (runServer w).trace =
        serverSetup ca (serverConfig cert (CertPool.AppendCertsFromPEM w x509.NewCertPool ca).1)
          ++ rest ∧
      ∀ ev ∈ rest, (∃ line, ev = Event.Fatal line) ∨ (∃ line, ev = Event.Print line) ∨
        ∃ lis, ev = Event.Serve
          (servingServer (serverConfig cert (CertPool.AppendCertsFromPEM w x509.NewCertPool ca).1))
          lis := by
  rcases h4 : w.Listen "tcp" ":50051" with e | lis
  · refine ⟨[Event.Fatal ("failed to listen: " ++ e.Error)], ?_, ?_⟩
    · simp [runServer, runMain, serverMain, bind, Go.bind, call, log.Fatal, pure, h1, h2, h3, h4,
        serverSetup]
    · simp
  · rcases h5 : w.Serve
        (servingServer (serverConfig cert (CertPool.AppendCertsFromPEM w x509.NewCertPool ca).1))
        lis with _ | (_ | e)
    · refine ⟨[Event.Print "mTLS Server listening on port 50051...",
        Event.Serve (servingServer
          (serverConfig cert (CertPool.AppendCertsFromPEM w x509.NewCertPool ca).1)) lis], ?_, ?_⟩
      · simp only [servingServer] at h5
        simp [runServer, runMain, serverMain, bind, Go.bind, call, log.Fatal, log.Print,
          callForever, pure, h1, h2, h3, h4, h5, serverSetup, servingServer]
      · simp
    · refine ⟨[Event.Print "mTLS Server listening on port 50051...",
        Event.Serve (servingServer
          (serverConfig cert (CertPool.AppendCertsFromPEM w x509.NewCertPool ca).1)) lis], ?_, ?_⟩
      · simp only [servingServer] at h5
        simp [runServer, runMain, serverMain, bind, Go.bind, call, log.Fatal, log.Print,
          callForever, pure, h1, h2, h3, h4, h5, serverSetup, servingServer]
      · simp
    · refine ⟨[Event.Print "mTLS Server listening on port 50051...",
        Event.Serve (servingServer
          (serverConfig cert (CertPool.AppendCertsFromPEM w x509.NewCertPool ca).1)) lis,
        Event.Fatal ("failed to serve: " ++ e.Error)], ?_, ?_⟩
      · simp only [servingServer] at h5
        simp [runServer, runMain, serverMain, bind, Go.bind, call, log.Fatal, log.Print,
          callForever, pure, h1, h2, h3, h4, h5, serverSetup, servingServer]
      · simp

/-! ## Lemmas: the runs of the client -/

theorem runClient_keyPair_error (w : World) (e : GoError)
    (h1 : w.LoadX509KeyPair "certs/client.crt" "certs/client.key" = Except.error e) :
    runClient w =
      { trace := [Event.LoadX509KeyPair "certs/client.crt" "certs/client.key",
          Event.Fatal ("failed to load client key pair: " ++ e.Error)]
        status := Status.exited 1 } := by
  simp [runClient, runMain, clientMain, bind, Go.bind, call, log.Fatal, h1]

theorem runClient_readFile_error (w : World) (cert : Certificate) (e : GoError)
    (h1 : w.LoadX509KeyPair "certs/client.crt" "certs/client.key" = Except.ok cert)
    (h2 : w.ReadFile "certs/ca.crt" = Except.error e) :
    runClient w =
      { trace := [Event.LoadX509KeyPair "certs/client.crt" "certs/client.key",
          Event.NewCertPool, Event.ReadFile "certs/ca.crt",
          Event.Fatal ("failed to read ca cert: " ++ e.Error)]
        status := Status.exited 1 } := by
  simp [runClient, runMain, clientMain, bind, Go.bind, call, log.Fatal, pure, h1, h2]

theorem runClient_append_failed (w : World) (cert : Certificate) (ca : Bytes)
    (h1 : w.LoadX509KeyPair "certs/client.crt" "certs/client.key" = Except.ok cert)
    (h2 : w.ReadFile "certs/ca.crt" = Except.ok ca)
    (h3 : (CertPool.AppendCertsFromPEM w x509.NewCertPool ca).2 = false) :
    runClient w =
      { trace := [Event.LoadX509KeyPair "certs/client.crt" "certs/client.key",
          Event.NewCertPool, Event.ReadFile "certs/ca.crt", Event.AppendCertsFromPEM ca,
          Event.Fatal "failed to append ca certs"]
        status := Status.exited 1 } := by
  simp [runClient, runMain, clientMain, bind, Go.bind, call, log.Fatal, pure, h1, h2, h3]

theorem runClient_newClient_error (w : World) (cert : Certificate) (ca : Bytes) (e : GoError)
    (h1 : w.LoadX509KeyPair "certs/client.crt" "certs/client.key" = Except.ok cert)
    (h2 : w.ReadFile "certs/ca.crt" = Except.ok ca)
    (h3 : (CertPool.AppendCertsFromPEM w x509.NewCertPool ca).2 = true)
    (h4 : w.NewClient "localhost:50051"
      { config := clientConfig cert (CertPool.AppendCertsFromPEM w x509.NewCertPool ca).1 }
        = Except.error e) :
    runClient w =
      { trace := clientSetup ca
            (clientConfig cert (CertPool.AppendCertsFromPEM w x509.NewCertPool ca).1)
          ++ [Event.Fatal ("did not connect: " ++ e.Error)]
        status := Status.exited 1 } := by
  simp [runClient, runMain, clientMain, bind, Go.bind, call, log.Fatal, pure, h1, h2, h3, h4,
    clientSetup]

theorem runClient_call_error (w : World) (cert : Certificate) (ca : Bytes) (conn : ClientConn)
    (e : GoError)
    (h1 : w.LoadX509KeyPair "certs/client.crt" "certs/client.key" = Except.ok cert)
    (h2 : w.ReadFile "certs/ca.crt" = Except.ok ca)
    (h3 : (CertPool.AppendCertsFromPEM w x509.NewCertPool ca).2 = true)
    (h4 : w.NewClient "localhost:50051"
      { config := clientConfig cert (CertPool.AppendCertsFromPEM w x509.NewCertPool ca).1 }
        = Except.ok conn)
    (h5 : w.SayHello conn callContext { Name := "mTLS World" } = Except.error e) :
    runClient w =
      { trace := clientSetup ca
            (clientConfig cert (CertPool.AppendCertsFromPEM w x509.NewCertPool ca).1)
          ++ clientCall conn ++ [Event.Fatal ("could not greet: " ++ e.Error)]
        status := Status.exited 1 } := by
  simp only [callContext] at h5
  simp [runClient, runMain, clientMain, bind, Go.bind, call, defer, log.Fatal, pure, h1, h2, h3,
    h4, h5, clientSetup, clientCall, callContext]

theorem runClient_call_ok (w : World) (cert : Certificate) (ca : Bytes) (conn : ClientConn)
    (r : HelloReply)
    (h1 : w.LoadX509KeyPair "certs/client.crt" "certs/client.key" = Except.ok cert)
    (h2 : w.ReadFile "certs/ca.crt" = Except.ok ca)
    (h3 : (CertPool.AppendCertsFromPEM w x509.NewCertPool ca).2 = true)
    (h4 : w.NewClient "localhost:50051"
      { config := clientConfig cert (CertPool.AppendCertsFromPEM w x509.NewCertPool ca).1 }
        = Except.ok conn)
    (h5 : w.SayHello conn callContext { Name := "mTLS World" } = Except.ok r) :
    runClient w =
      { trace := clientSetup ca
            (clientConfig cert (CertPool.AppendCertsFromPEM w x509.NewCertPool ca).1)
          ++ clientCall conn
          ++ [Event.Print ("Server Response: " ++ r.Message), Event.cancel callContext,
              Event.Close conn]
        status := Status.exited 0 } := by
  simp only [callContext] at h5
  simp [runClient, runMain, clientMain, bind, Go.bind, call, defer, log.Fatal, log.Print, pure,
    h1, h2, h3, h4, h5, clientSetup, clientCall, callContext, HelloReply.GetMessage]

/-- When the three load steps succeed, the client makes the calls of
`clientSetup` with the configuration of step 3, and every later call is made
on a connection `grpc.NewClient` returned for that configuration. -/
theorem runClient_loaded (w : World) (cert : Certificate) (ca : Bytes)
    (h1 : w.LoadX509KeyPair "certs/client.crt" "certs/client.key" = Except.ok cert)
    (h2 : w.ReadFile "certs/ca.crt" = Except.ok ca)
    (h3 : (CertPool.AppendCertsFromPEM w x509.NewCertPool ca).2 = true) :
    ∃ rest, (runClient w).trace =
        clientSetup ca (clientConfig cert (CertPool.AppendCertsFromPEM w x509.NewCertPool ca).1)
          ++ rest ∧
      ∀ ev ∈ rest, (∀ c, ev ≠ Event.NewTLS c) ∧ (∀ target creds, ev ≠ Event.NewClient target creds) ∧
        ∀ conn ctx req, ev = Event.SayHello conn ctx req →
          ctx = callContext ∧ req = { Name := "mTLS World" } ∧
          w.NewClient "localhost:50051"
            { config := clientConfig cert (CertPool.AppendCertsFromPEM w x509.NewCertPool ca).1 }
              = Except.ok conn := by
  rcases h4 : w.NewClient "localhost:50051"
      { config := clientConfig cert (CertPool.AppendCertsFromPEM w x509.NewCertPool ca).1 }
    with e | conn
  · refine ⟨[Event.Fatal ("did not connect: " ++ e.Error)], ?_, ?_⟩
    · rw [runClient_newClient_error w cert ca e h1 h2 h3 h4]
    · simp
  · rcases h5 : w.SayHello conn callContext { Name := "mTLS World" } with e | r
    · refine ⟨clientCall conn ++ [Event.Fatal ("could not greet: " ++ e.Error)], ?_, ?_⟩
      · rw [runClient_call_error w cert ca conn e h1 h2 h3 h4 h5, List.append_assoc]
      · simp [clientCall]
    · refine ⟨clientCall conn ++ [Event.Print ("Server Response: " ++ r.Message),
        Event.cancel callContext, Event.Close conn], ?_, ?_⟩
      · rw [runClient_call_ok w cert ca conn r h1 h2 h3 h4 h5, List.append_assoc]
      · simp [clientCall]

/-! ## Lemmas: the reply message -/

theorem replyMessage_eq (n : String) :
    replyMessage n = "Hello " ++ n ++ ", connection is secure!" := rfl

theorem replyMessage_data (n : String) :
    (replyMessage n).data = "Hello ".data ++ (n.data ++ ", connection is secure!".data) := by
  simp [replyMessage_eq]

theorem utf8ByteSize_append (s t : String) :
    (s ++ t).utf8ByteSize = s.utf8ByteSize + t.utf8ByteSize := by
  obtain ⟨cs⟩ := s
  obtain ⟨ds⟩ := t
  show String.utf8ByteSize ⟨cs ++ ds⟩ = _
  simp [String.utf8ByteSize_mk]

theorem rdrop_append_length {α : Type} (l m : List α) : (l ++ m).rdrop m.length = l := by
  rw [List.rdrop_eq_reverse_drop_reverse, List.reverse_append]
  have h : m.length = m.reverse.length := by simp
  rw [h, List.drop_left]
  simp


/-- Every RPC the client issues carries the call context and the request
named "mTLS World". -/
theorem runClient_sayHello (w : World) (conn : ClientConn) (ctx : Context) (req : HelloRequest)
    (h : Event.SayHello conn ctx req ∈ (runClient w).trace) :
    ctx = callContext ∧ req = { Name := "mTLS World" } := by
  rcases h1 : w.LoadX509KeyPair "certs/client.crt" "certs/client.key" with e | cert
  · rw [runClient_keyPair_error w e h1] at h
    simp at h
  · rcases h2 : w.ReadFile "certs/ca.crt" with e | ca
    · rw [runClient_readFile_error w cert e h1 h2] at h
      simp at h
    · rcases h3 : (CertPool.AppendCertsFromPEM w x509.NewCertPool ca).2 with _ | _
      · rw [runClient_append_failed w cert ca h1 h2 h3] at h
        simp at h
      · obtain ⟨rest, htr, hrest⟩ := runClient_loaded w cert ca h1 h2 h3
        rw [htr] at h
        rcases List.mem_append.1 h with hs | hr
        · simp [clientSetup] at hs
        · obtain ⟨hctx, hreq, _⟩ := (hrest _ hr).2.2 conn ctx req rfl
          exact ⟨hctx, hreq⟩

/-! ## The handler -/

/-- C1: for every receiver, every context and every request named `n`,
`SayHello` returns a nil error and the reply "Hello " ++ n ++ ", connection is
secure!"; for the name "mTLS World", which is the name in every request the
client sends, the message is "Hello mTLS World, connection is secure!"; the
result is the same for every receiver and every context. -/
theorem SayHello_reply (s : server) (ctx : Context) (n : String) :
    (server.SayHello s ctx (some { Name := n })).err = none ∧
    (server.SayHello s ctx (some { Name := n })).reply =
      some { Message := "Hello " ++ n ++ ", connection is secure!" } ∧
    (server.SayHello s ctx (some { Name := "mTLS World" })).reply =
      some { Message := "Hello mTLS World, connection is secure!" } ∧
    (∀ (w : World) (conn : ClientConn) (ctx1 : Context) (req : HelloRequest),
      Event.SayHello conn ctx1 req ∈ (runClient w).trace → req.Name = "mTLS World") ∧
    ∀ (s2 : server) (ctx2 : Context) (req : Option HelloRequest),
      server.SayHello s2 ctx2 req = server.SayHello s ctx req := by
  refine ⟨rfl, rfl, rfl, ?_, ?_⟩
  · intro w conn ctx1 req h
    rw [(runClient_sayHello w conn ctx1 req h).2]
  · intro s2 ctx2 req
    rfl

/-- C1, at the good world: the request the client sends there is named
"mTLS World", and the handler answers it with the greeting. -/
theorem SayHello_reply_witness :
    Event.SayHello
        { target := "localhost:50051",
          creds := { config := clientConfig sampleCert { certs := [{ Raw := [1] }, { Raw := [3] }] } } }
        callContext { Name := "mTLS World" } ∈ (runClient goodWorld).trace ∧
      (server.SayHello server.mk callContext (some { Name := "mTLS World" })).reply =
        some { Message := "Hello mTLS World, connection is secure!" } ∧
      ({ Name := "mTLS World" } : HelloRequest).Name = "mTLS World" :=
  ⟨by decide, (SayHello_reply server.mk callContext "mTLS World").2.2.1,
    (SayHello_reply server.mk callContext "mTLS World").2.2.2.1 goodWorld
      { target := "localhost:50051",
        creds := { config := clientConfig sampleCert { certs := [{ Raw := [1] }, { Raw := [3] }] } } }
      callContext { Name := "mTLS World" } (by decide)⟩

/-- C10: the reply message determines the request name.  Replies with equal
messages have equal names; the message of the reply to `n` is 29 longer than
`n`, in characters and in bytes; its first 6 characters are "Hello ", and
dropping them and the last 23 characters leaves exactly `n`. -/
theorem replyMessage_recovers_name :
    (∀ a b : String, replyMessage a = replyMessage b → a = b) ∧
    ∀ n : String,
      (server.SayHello server.mk context.Background (some { Name := n })).reply =
        some { Message := replyMessage n } ∧
      (replyMessage n).length = n.length + 29 ∧
      goLen (replyMessage n) = goLen n + 29 ∧
      (replyMessage n).take 6 = "Hello " ∧
      (replyMessage n).drop (6 + n.length) = ", connection is secure!" ∧
      String.mk (((replyMessage n).drop 6).data.rdrop 23) = n := by
  have h6 : (6 : Nat) = "Hello ".data.length := by decide
  have h23 : (23 : Nat) = ", connection is secure!".data.length := by decide
  refine ⟨?_, fun n => ⟨rfl, ?_, ?_, ?_, ?_, ?_⟩⟩
  · intro a b h
    have hd := congrArg String.data h
    rw [replyMessage_data, replyMessage_data] at hd
    exact String.ext (List.append_cancel_right (List.append_cancel_left hd))
  · have e6 : "Hello ".length = 6 := by decide
    have e23 : ", connection is secure!".length = 23 := by decide
    simp only [replyMessage_eq, String.length_append, e6, e23]
    omega
  · have e6 : "Hello ".utf8ByteSize = 6 := by decide
    have e23 : ", connection is secure!".utf8ByteSize = 23 := by decide
    simp only [goLen, replyMessage_eq, utf8ByteSize_append, e6, e23]
    omega
  · rw [String.take_eq]
    apply String.ext
    show (replyMessage n).data.take 6 = "Hello ".data
    rw [replyMessage_data, h6, List.take_left]
  · rw [String.drop_eq]
    apply String.ext
    show (replyMessage n).data.drop (6 + n.length) = ", connection is secure!".data
    have hlen : 6 + n.length = ("Hello ".data ++ n.data).length := by
      rw [List.length_append, ← h6]; rfl
    rw [replyMessage_data, ← List.append_assoc, hlen, List.drop_left]
  · rw [String.drop_eq]
    apply String.ext
    show ((replyMessage n).data.drop 6).rdrop 23 = n.data
    rw [replyMessage_data, h6, List.drop_left, h23, rdrop_append_length]

/-- C10, at names that are empty or contain the greeting's own text: two names
with equal replies are equal, and the name comes back out of the reply. -/
theorem replyMessage_recovers_name_witness :
    replyMessage "Hello " = replyMessage "Hello " ∧ "Hello " = "Hello " ∧
      String.mk (((replyMessage "").drop 6).data.rdrop 23) = "" ∧
      String.mk (((replyMessage ", connection is secure!").drop 6).data.rdrop 23) =
        ", connection is secure!" :=
  ⟨rfl, replyMessage_recovers_name.1 "Hello " "Hello " rfl,
    (replyMessage_recovers_name.2 "").2.2.2.2.2,
    (replyMessage_recovers_name.2 ", connection is secure!").2.2.2.2.2⟩

/-! ## Lemmas: the steps after loading -/

/-- A step of the server that follows the load steps is made only when all
three load steps succeeded, and every TLS configuration, credentials or gRPC
server it carries is the one of step 3. -/
theorem runServer_afterLoad (w : World) (ev : Event) (hev : ev ∈ (runServer w).trace)
    (hafter : ev.afterLoad = true) :
    ∃ cert ca, w.LoadX509KeyPair "certs/server.crt" "certs/server.key" = Except.ok cert ∧
      w.ReadFile "certs/ca.crt" = Except.ok ca ∧
      (CertPool.AppendCertsFromPEM w x509.NewCertPool ca).2 = true ∧
      (∀ c, ev = Event.NewTLS c →
        c = serverConfig cert (CertPool.AppendCertsFromPEM w x509.NewCertPool ca).1) ∧
      (∀ creds, ev = Event.NewServer creds →
        creds.config = serverConfig cert (CertPool.AppendCertsFromPEM w x509.NewCertPool ca).1) ∧
      (∀ s srv, ev = Event.RegisterGreeterServer s srv →
        s.creds.config = serverConfig cert (CertPool.AppendCertsFromPEM w x509.NewCertPool ca).1) ∧
      ∀ s lis, ev = Event.Serve s lis →
        s = servingServer
          (serverConfig cert (CertPool.AppendCertsFromPEM w x509.NewCertPool ca).1) := by
  rcases h1 : w.LoadX509KeyPair "certs/server.crt" "certs/server.key" with e | cert
  · rw [runServer_keyPair_error w e h1] at hev
    simp at hev
    rcases hev with rfl | rfl <;> simp [Event.afterLoad] at hafter
  · rcases h2 : w.ReadFile "certs/ca.crt" with e | ca
    · rw [runServer_readFile_error w cert e h1 h2] at hev
      simp at hev
      rcases hev with rfl | rfl | rfl | rfl <;> simp [Event.afterLoad] at hafter
    · rcases h3 : (CertPool.AppendCertsFromPEM w x509.NewCertPool ca).2 with _ | _
      · rw [runServer_append_failed w cert ca h1 h2 h3] at hev
        simp at hev
        rcases hev with rfl | rfl | rfl | rfl | rfl <;> simp [Event.afterLoad] at hafter
      · obtain ⟨rest, htr, hrest⟩ := runServer_loaded w cert ca h1 h2 h3
        refine ⟨cert, ca, rfl, rfl, h3, ?_⟩
        rw [htr] at hev
        rcases List.mem_append.1 hev with hs | hr
        · simp [serverSetup] at hs
          rcases hs with rfl | rfl | rfl | rfl | rfl | rfl | rfl | rfl <;> simp
        · rcases hrest ev hr with ⟨line, rfl⟩ | ⟨line, rfl⟩ | ⟨lis, rfl⟩ <;> simp

/-- A step of the client that follows the load steps is made only when all
three load steps succeeded; the TLS configuration it builds is the one of
step 3, and it dials "localhost:50051" with the credentials of that
configuration. -/
theorem runClient_afterLoad (w : World) (ev : Event) (hev : ev ∈ (runClient w).trace)
    (hafter : ev.afterLoad = true) :
    ∃ cert ca, w.LoadX509KeyPair "certs/client.crt" "certs/client.key" = Except.ok cert ∧
      w.ReadFile "certs/ca.crt" = Except.ok ca ∧
      (CertPool.AppendCertsFromPEM w x509.NewCertPool ca).2 = true ∧
      (∀ c, ev = Event.NewTLS c →
        c = clientConfig cert (CertPool.AppendCertsFromPEM w x509.NewCertPool ca).1) ∧
      ∀ target creds, ev = Event.NewClient target creds →
        target = "localhost:50051" ∧
        creds.config = clientConfig cert (CertPool.AppendCertsFromPEM w x509.NewCertPool ca).1 := by
  rcases h1 : w.LoadX509KeyPair "certs/client.crt" "certs/client.key" with e | cert
  · rw [runClient_keyPair_error w e h1] at hev
    simp at hev
    rcases hev with rfl | rfl <;> simp [Event.afterLoad] at hafter
  · rcases h2 : w.ReadFile "certs/ca.crt" with e | ca
    · rw [runClient_readFile_error w cert e h1 h2] at hev
      simp at hev
      rcases hev with rfl | rfl | rfl | rfl <;> simp [Event.afterLoad] at hafter
    · rcases h3 : (CertPool.AppendCertsFromPEM w x509.NewCertPool ca).2 with _ | _
      · rw [runClient_append_failed w cert ca h1 h2 h3] at hev
        simp at hev
        rcases hev with rfl | rfl | rfl | rfl | rfl <;> simp [Event.afterLoad] at hafter
      · obtain ⟨rest, htr, hrest⟩ := runClient_loaded w cert ca h1 h2 h3
        refine ⟨cert, ca, rfl, rfl, h3, ?_⟩
        rw [htr] at hev
        rcases List.mem_append.1 hev with hs | hr
        · simp [clientSetup] at hs
          rcases hs with rfl | rfl | rfl | rfl | rfl | rfl <;> simp
        · obtain ⟨hn1, hn2, _⟩ := hrest ev hr
          refine ⟨fun c hc => absurd hc (hn1 c), fun target creds hc => absurd hc (hn2 target creds)⟩

/-! ## The TLS policies -/

theorem localhost_ne_empty (cert : Certificate) (pool : CertPool) :
    (clientConfig cert pool).ServerName ≠ "" := by
  show "localhost" ≠ ""
  decide

theorem localhost_target (cert : Certificate) (pool : CertPool) :
    "localhost:50051" = (clientConfig cert pool).ServerName ++ ":50051" := by
  show "localhost:50051" = "localhost" ++ ":50051"
  decide

/-- C2: when the server's identity and trust store load, the server builds a
TLS configuration and creates the gRPC server with it; every configuration the
server builds, creates a gRPC server with, or serves under has client
authentication `RequireAndVerifyClientCert`, the loaded pool as its client CAs
and exactly the loaded identity as its certificates. -/
theorem server_policy_requires_client_cert (w : World) :
    (∀ cert ca, w.LoadX509KeyPair "certs/server.crt" "certs/server.key" = Except.ok cert →
      w.ReadFile "certs/ca.crt" = Except.ok ca →
      (CertPool.AppendCertsFromPEM w x509.NewCertPool ca).2 = true →
      ∃ c, Event.NewTLS c ∈ (runServer w).trace ∧
        Event.NewServer { config := c } ∈ (runServer w).trace ∧
        c.ClientAuth = ClientAuthType.RequireAndVerifyClientCert ∧
        c.ClientCAs = some (CertPool.AppendCertsFromPEM w x509.NewCertPool ca).1 ∧
        c.Certificates = [cert]) ∧
    ∀ c, (Event.NewTLS c ∈ (runServer w).trace ∨
        Event.NewServer { config := c } ∈ (runServer w).trace ∨
        ∃ s lis, Event.Serve s lis ∈ (runServer w).trace ∧ s.creds.config = c) →
      c.ClientAuth = ClientAuthType.RequireAndVerifyClientCert ∧
      ∃ cert ca, w.LoadX509KeyPair "certs/server.crt" "certs/server.key" = Except.ok cert ∧
        w.ReadFile "certs/ca.crt" = Except.ok ca ∧
        (CertPool.AppendCertsFromPEM w x509.NewCertPool ca).2 = true ∧
        c.ClientCAs = some (CertPool.AppendCertsFromPEM w x509.NewCertPool ca).1 ∧
        c.Certificates = [cert] := by
  constructor
  · intro cert ca h1 h2 h3
    obtain ⟨rest, htr, _⟩ := runServer_loaded w cert ca h1 h2 h3
    refine ⟨serverConfig cert (CertPool.AppendCertsFromPEM w x509.NewCertPool ca).1,
      ?_, ?_, rfl, rfl, rfl⟩
    · rw [htr]; simp [serverSetup]
    · rw [htr]; simp [serverSetup]
  · intro c hc
    rcases hc with hc | hc | ⟨s, lis, hc, hs⟩
    · obtain ⟨cert, ca, h1, h2, h3, hcfg, _⟩ := runServer_afterLoad w _ hc rfl
      rw [hcfg c rfl]
      exact ⟨rfl, cert, ca, h1, h2, h3, rfl, rfl⟩
    · obtain ⟨cert, ca, h1, h2, h3, _, hcfg, _⟩ := runServer_afterLoad w _ hc rfl
      have hcc := hcfg _ rfl
      simp only at hcc
      rw [hcc]
      exact ⟨rfl, cert, ca, h1, h2, h3, rfl, rfl⟩
    · obtain ⟨cert, ca, h1, h2, h3, _, _, _, hcfg⟩ := runServer_afterLoad w _ hc rfl
      rw [← hs, hcfg s lis rfl]
      exact ⟨rfl, cert, ca, h1, h2, h3, rfl, rfl⟩

/-- C2, at the good world: the server builds a configuration that requires and
verifies client certificates, and the configuration it serves under does. -/
theorem server_policy_requires_client_cert_witness :
    (∃ c, Event.NewTLS c ∈ (runServer goodWorld).trace ∧
      Event.NewServer { config := c } ∈ (runServer goodWorld).trace ∧
      c.ClientAuth = ClientAuthType.RequireAndVerifyClientCert ∧
      c.ClientCAs = some (CertPool.AppendCertsFromPEM goodWorld x509.NewCertPool [45, 45]).1 ∧
      c.Certificates = [sampleCert]) ∧
    (serverConfig sampleCert { certs := [{ Raw := [1] }, { Raw := [3] }] }).ClientAuth =
      ClientAuthType.RequireAndVerifyClientCert :=
  ⟨(server_policy_requires_client_cert goodWorld).1 sampleCert [45, 45] rfl rfl (by decide),
    ((server_policy_requires_client_cert goodWorld).2
      (serverConfig sampleCert { certs := [{ Raw := [1] }, { Raw := [3] }] })
      (Or.inr (Or.inr ⟨servingServer (serverConfig sampleCert { certs := [{ Raw := [1] }, { Raw := [3] }] }),
        { network := "tcp", address := ":50051" }, by decide, rfl⟩))).1⟩

/-- C4: when the client's identity and trust store load, the client builds a
TLS configuration and dials "localhost:50051" with it; every configuration the
client builds or dials with has the server name "localhost" (not empty, and the
host of the dial target), verification of the server certificate left on, the
loaded pool as its root CAs and exactly the loaded identity as its
certificates. -/
theorem client_policy_names_peer (w : World) :
    (∀ cert ca, w.LoadX509KeyPair "certs/client.crt" "certs/client.key" = Except.ok cert →
      w.ReadFile "certs/ca.crt" = Except.ok ca →
      (CertPool.AppendCertsFromPEM w x509.NewCertPool ca).2 = true →
      ∃ c, Event.NewTLS c ∈ (runClient w).trace ∧
        Event.NewClient "localhost:50051" { config := c } ∈ (runClient w).trace ∧
        c.ServerName = "localhost" ∧
        c.RootCAs = some (CertPool.AppendCertsFromPEM w x509.NewCertPool ca).1 ∧
        c.Certificates = [cert]) ∧
    ∀ c, (Event.NewTLS c ∈ (runClient w).trace ∨
        ∃ target, Event.NewClient target { config := c } ∈ (runClient w).trace) →
      c.ServerName = "localhost" ∧ c.ServerName ≠ "" ∧
      "localhost:50051" = c.ServerName ++ ":50051" ∧
      (∀ target, Event.NewClient target { config := c } ∈ (runClient w).trace →
        target = "localhost:50051") ∧
      c.InsecureSkipVerify = false ∧
      ∃ cert ca, w.LoadX509KeyPair "certs/client.crt" "certs/client.key" = Except.ok cert ∧
        w.ReadFile "certs/ca.crt" = Except.ok ca ∧
        (CertPool.AppendCertsFromPEM w x509.NewCertPool ca).2 = true ∧
        c.RootCAs = some (CertPool.AppendCertsFromPEM w x509.NewCertPool ca).1 ∧
        c.Certificates = [cert] := by
  constructor
  · intro cert ca h1 h2 h3
    obtain ⟨rest, htr, _⟩ := runClient_loaded w cert ca h1 h2 h3
    refine ⟨clientConfig cert (CertPool.AppendCertsFromPEM w x509.NewCertPool ca).1,
      ?_, ?_, rfl, rfl, rfl⟩
    · rw [htr]; simp [clientSetup]
    · rw [htr]; simp [clientSetup]
  · intro c hc
    have htarget : ∀ target, Event.NewClient target { config := c } ∈ (runClient w).trace →
        target = "localhost:50051" := by
      intro target ht
      obtain ⟨_, _, _, _, _, _, hcl⟩ := runClient_afterLoad w _ ht rfl
      exact (hcl _ _ rfl).1
    rcases hc with hc | ⟨target, hc⟩
    · obtain ⟨cert, ca, h1, h2, h3, hcfg, _⟩ := runClient_afterLoad w _ hc rfl
      have hcc := hcfg c rfl
      subst hcc
      exact ⟨rfl, localhost_ne_empty _ _, localhost_target _ _, htarget, rfl, cert, ca, h1, h2, h3, rfl,
        rfl⟩
    · obtain ⟨cert, ca, h1, h2, h3, _, hcfg⟩ := runClient_afterLoad w _ hc rfl
      have hcc := (hcfg _ _ rfl).2
      simp only at hcc
      subst hcc
      exact ⟨rfl, localhost_ne_empty _ _, localhost_target _ _, htarget, rfl, cert, ca, h1, h2, h3, rfl,
        rfl⟩

/-- C4, at the good world: the client builds a configuration that names the
peer "localhost" and dials with it. -/
theorem client_policy_names_peer_witness :
    (∃ c, Event.NewTLS c ∈ (runClient goodWorld).trace ∧
      Event.NewClient "localhost:50051" { config := c } ∈ (runClient goodWorld).trace ∧
      c.ServerName = "localhost" ∧
      c.RootCAs = some (CertPool.AppendCertsFromPEM goodWorld x509.NewCertPool [45, 45]).1 ∧
      c.Certificates = [sampleCert]) ∧
    (clientConfig sampleCert { certs := [{ Raw := [1] }, { Raw := [3] }] }).InsecureSkipVerify =
      false :=
  ⟨(client_policy_names_peer goodWorld).1 sampleCert [45, 45] rfl rfl (by decide),
    ((client_policy_names_peer goodWorld).2
      (clientConfig sampleCert { certs := [{ Raw := [1] }, { Raw := [3] }] })
      (Or.inl (by decide))).2.2.2.2.1⟩

/-! ## Failing fast -/

/-- C5: in both programs, for every outcome of the three load steps, a failing
step is followed by the fatal log line of that step and exit status 1 and by
no other call; and a step that follows the load steps (building credentials,
creating the server or the connection, listening, serving, calling) is made
only if all three load steps succeeded. -/
theorem load_failure_aborts (w : World) :
    ((∀ e, w.LoadX509KeyPair "certs/server.crt" "certs/server.key" = Except.error e →
        runServer w =
          { trace := [Event.LoadX509KeyPair "certs/server.crt" "certs/server.key",
              Event.Fatal ("failed to load server key pair: " ++ e.Error)]
            status := Status.exited 1 }) ∧
      (∀ cert e, w.LoadX509KeyPair "certs/server.crt" "certs/server.key" = Except.ok cert →
        w.ReadFile "certs/ca.crt" = Except.error e →
        runServer w =
          { trace := [Event.LoadX509KeyPair "certs/server.crt" "certs/server.key",
              Event.NewCertPool, Event.ReadFile "certs/ca.crt",
              Event.Fatal ("failed to read ca cert: " ++ e.Error)]
            status := Status.exited 1 }) ∧
      (∀ cert ca, w.LoadX509KeyPair "certs/server.crt" "certs/server.key" = Except.ok cert →
        w.ReadFile "certs/ca.crt" = Except.ok ca →
        (CertPool.AppendCertsFromPEM w x509.NewCertPool ca).2 = false →
        runServer w =
          { trace := [Event.LoadX509KeyPair "certs/server.crt" "certs/server.key",
              Event.NewCertPool, Event.ReadFile "certs/ca.crt", Event.AppendCertsFromPEM ca,
              Event.Fatal "failed to append ca certs"]
            status := Status.exited 1 }) ∧
      ∀ ev ∈ (runServer w).trace, ev.afterLoad = true →
        ∃ cert ca, w.LoadX509KeyPair "certs/server.crt" "certs/server.key" = Except.ok cert ∧
          w.ReadFile "certs/ca.crt" = Except.ok ca ∧
          (CertPool.AppendCertsFromPEM w x509.NewCertPool ca).2 = true) ∧
    ((∀ e, w.LoadX509KeyPair "certs/client.crt" "certs/client.key" = Except.error e →
        runClient w =
          { trace := [Event.LoadX509KeyPair "certs/client.crt" "certs/client.key",
              Event.Fatal ("failed to load client key pair: " ++ e.Error)]
            status := Status.exited 1 }) ∧
      (∀ cert e, w.LoadX509KeyPair "certs/client.crt" "certs/client.key" = Except.ok cert →
        w.ReadFile "certs/ca.crt" = Except.error e →
        runClient w =
          { trace := [Event.LoadX509KeyPair "certs/client.crt" "certs/client.key",
              Event.NewCertPool, Event.ReadFile "certs/ca.crt",
              Event.Fatal ("failed to read ca cert: " ++ e.Error)]
            status := Status.exited 1 }) ∧
      (∀ cert ca, w.LoadX509KeyPair "certs/client.crt" "certs/client.key" = Except.ok cert →
        w.ReadFile "certs/ca.crt" = Except.ok ca →
        (CertPool.AppendCertsFromPEM w x509.NewCertPool ca).2 = false →
        runClient w =
          { trace := [Event.LoadX509KeyPair "certs/client.crt" "certs/client.key",
              Event.NewCertPool, Event.ReadFile "certs/ca.crt", Event.AppendCertsFromPEM ca,
              Event.Fatal "failed to append ca certs"]
            status := Status.exited 1 }) ∧
      ∀ ev ∈ (runClient w).trace, ev.afterLoad = true →
        ∃ cert ca, w.LoadX509KeyPair "certs/client.crt" "certs/client.key" = Except.ok cert ∧
          w.ReadFile "certs/ca.crt" = Except.ok ca ∧
          (CertPool.AppendCertsFromPEM w x509.NewCertPool ca).2 = true) := by
  refine ⟨⟨?_, ?_, ?_, ?_⟩, ⟨?_, ?_, ?_, ?_⟩⟩
  · exact fun e h1 => runServer_keyPair_error w e h1
  · exact fun cert e h1 h2 => runServer_readFile_error w cert e h1 h2
  · exact fun cert ca h1 h2 h3 => runServer_append_failed w cert ca h1 h2 h3
  · intro ev hev hafter
    obtain ⟨cert, ca, h1, h2, h3, _⟩ := runServer_afterLoad w ev hev hafter
    exact ⟨cert, ca, h1, h2, h3⟩
  · exact fun e h1 => runClient_keyPair_error w e h1
  · exact fun cert e h1 h2 => runClient_readFile_error w cert e h1 h2
  · exact fun cert ca h1 h2 h3 => runClient_append_failed w cert ca h1 h2 h3
  · intro ev hev hafter
    obtain ⟨cert, ca, h1, h2, h3, _⟩ := runClient_afterLoad w ev hev hafter
    exact ⟨cert, ca, h1, h2, h3⟩

/-- C5, at worlds where one load step fails each, and at the good world: the
server stops after the failing step, the client too, and where the server
listens all three load steps succeeded. -/
theorem load_failure_aborts_witness :
    (runServer noKeyPairWorld).trace.length = 2 ∧
    (runServer noCAFileWorld).trace.length = 4 ∧
    (runServer emptyCAWorld).trace.length = 5 ∧
    (runClient noKeyPairWorld).status = Status.exited 1 ∧
    (runClient noCAFileWorld).status = Status.exited 1 ∧
    (runClient emptyCAWorld).status = Status.exited 1 ∧
    (∃ cert ca, goodWorld.LoadX509KeyPair "certs/server.crt" "certs/server.key" = Except.ok cert ∧
      goodWorld.ReadFile "certs/ca.crt" = Except.ok ca ∧
      (CertPool.AppendCertsFromPEM goodWorld x509.NewCertPool ca).2 = true) ∧
    ∃ cert ca, goodWorld.LoadX509KeyPair "certs/client.crt" "certs/client.key" = Except.ok cert ∧
      goodWorld.ReadFile "certs/ca.crt" = Except.ok ca ∧
      (CertPool.AppendCertsFromPEM goodWorld x509.NewCertPool ca).2 = true :=
  ⟨congrArg (fun r => r.trace.length)
      ((load_failure_aborts noKeyPairWorld).1.1 (errorf "open: no such file or directory") rfl),
    congrArg (fun r => r.trace.length)
      ((load_failure_aborts noCAFileWorld).1.2.1 sampleCert
        (errorf "open certs/ca.crt: no such file or directory") rfl rfl),
    congrArg (fun r => r.trace.length)
      ((load_failure_aborts emptyCAWorld).1.2.2.1 sampleCert [45, 45] rfl rfl (by decide)),
    congrArg Run.status
      ((load_failure_aborts noKeyPairWorld).2.1 (errorf "open: no such file or directory") rfl),
    congrArg Run.status
      ((load_failure_aborts noCAFileWorld).2.2.1 sampleCert
        (errorf "open certs/ca.crt: no such file or directory") rfl rfl),
    congrArg Run.status
      ((load_failure_aborts emptyCAWorld).2.2.2.1 sampleCert [45, 45] rfl rfl (by decide)),
    (load_failure_aborts goodWorld).1.2.2.2 (Event.Listen "tcp" ":50051") (by decide) rfl,
    (load_failure_aborts goodWorld).2.2.2.2
      (Event.WithTimeout context.Background time.Second) (by decide) rfl⟩

/-! ## The trust store -/

/-- The pool `AppendCertsFromPEM` leaves, starting from a new pool, holds
exactly the certificates of the file's blocks that parse. -/
theorem mem_AppendCertsFromPEM (w : World) (ca : Bytes) (cert : X509Certificate) :
    cert ∈ (CertPool.AppendCertsFromPEM w x509.NewCertPool ca).1.certs ↔
      ∃ b ∈ w.pemBlocks ca, b.blockType = "CERTIFICATE" ∧ b.Headers = [] ∧
        w.ParseCertificate b.Bytes = Except.ok cert := by
  unfold CertPool.AppendCertsFromPEM
  rw [mem_appendBlocks]
  simp [x509.NewCertPool]

/-- A file without a block that parses makes `AppendCertsFromPEM` report false. -/
theorem AppendCertsFromPEM_none (w : World) (ca : Bytes)
    (h : ∀ b ∈ w.pemBlocks ca, ∀ cert,
      ¬ (b.blockType = "CERTIFICATE" ∧ b.Headers = [] ∧
        w.ParseCertificate b.Bytes = Except.ok cert)) :
    (CertPool.AppendCertsFromPEM w x509.NewCertPool ca).2 = false := by
  cases hok : (CertPool.AppendCertsFromPEM w x509.NewCertPool ca).2 with
  | false => rfl
  | true =>
    obtain ⟨b, hb, hty, hhd, cert, hc⟩ := (appendBlocks_ok _ _ _).1 hok
    exact absurd ⟨hty, hhd, hc⟩ (h b hb cert)

/-- A file with a block that parses makes `AppendCertsFromPEM` report true. -/
theorem AppendCertsFromPEM_some (w : World) (ca : Bytes)
    (h : ∃ b ∈ w.pemBlocks ca, b.blockType = "CERTIFICATE" ∧ b.Headers = [] ∧
      ∃ cert, w.ParseCertificate b.Bytes = Except.ok cert) :
    (CertPool.AppendCertsFromPEM w x509.NewCertPool ca).2 = true :=
  (appendBlocks_ok w.ParseCertificate (w.pemBlocks ca) x509.NewCertPool).2 h

/-- C6, as the claim states it, fails for a certificate in a PEM block that
carries a header.  In `headerWorld` the CA file is read and its one block is a
`CERTIFICATE` whose bytes parse, yet both programs exit with status 1 and build
no TLS configuration.  In `mixedWorld` the file holds two `CERTIFICATE` blocks
that parse, and the pool the server uses holds the first and not the second. -/
theorem headered_certificate_not_accumulated :
    (headerWorld.ReadFile "certs/ca.crt" = Except.ok [45, 45] ∧
      (∃ b ∈ headerWorld.pemBlocks [45, 45], b.blockType = "CERTIFICATE" ∧
        headerWorld.ParseCertificate b.Bytes = Except.ok { Raw := [1] }) ∧
      (runServer headerWorld).status = Status.exited 1 ∧
      (∀ c, Event.NewTLS c ∉ (runServer headerWorld).trace) ∧
      (runClient headerWorld).status = Status.exited 1 ∧
      ∀ c, Event.NewTLS c ∉ (runClient headerWorld).trace) ∧
    (mixedWorld.ReadFile "certs/ca.crt" = Except.ok [45, 45] ∧
      (∃ b ∈ mixedWorld.pemBlocks [45, 45], b.blockType = "CERTIFICATE" ∧
        mixedWorld.ParseCertificate b.Bytes = Except.ok { Raw := [3] }) ∧
      Event.NewTLS (serverConfig sampleCert { certs := [{ Raw := [1] }] })
        ∈ (runServer mixedWorld).trace ∧
      ({ Raw := [3] } : X509Certificate) ∉ ({ certs := [{ Raw := [1] }] } : CertPool).certs) := by
  have hs := runServer_append_failed headerWorld sampleCert [45, 45] rfl rfl (by decide)
  have hc := runClient_append_failed headerWorld sampleCert [45, 45] rfl rfl (by decide)
  refine ⟨⟨rfl, ⟨_, List.mem_cons_self _ _, rfl, rfl⟩, ?_, ?_, ?_, ?_⟩,
    ⟨rfl, ⟨_, List.mem_cons_of_mem _ (List.mem_cons_self _ _), rfl, rfl⟩, by decide, by decide⟩⟩
  · rw [hs]
  · intro c
    rw [hs]
    simp
  · rw [hc]
  · intro c
    rw [hc]
    simp

/-- C6, amended: a certificate of the CA file counts when it is in a PEM block
of type `CERTIFICATE` that has no headers and parses.  The pool either program
puts into its TLS configuration (the client CAs of the server, the root CAs of
the client) is never empty and holds exactly those certificates.  When the CA
file cannot be read or holds no such certificate, both programs exit with
status 1 and build no TLS configuration.  When the identity loads and the file
holds one or more such certificates, the program builds its TLS configuration
with a pool that holds all of them, and creates the gRPC server, or dials, with
that configuration. -/
theorem trust_store_nonempty (w : World) :
    (∀ c, Event.NewTLS c ∈ (runServer w).trace →
      ∃ ca pool, w.ReadFile "certs/ca.crt" = Except.ok ca ∧ c.ClientCAs = some pool ∧
        pool.certs ≠ [] ∧
        ∀ cert, cert ∈ pool.certs ↔
          ∃ b ∈ w.pemBlocks ca, b.blockType = "CERTIFICATE" ∧ b.Headers = [] ∧
            w.ParseCertificate b.Bytes = Except.ok cert) ∧
    (∀ c, Event.NewTLS c ∈ (runClient w).trace →
      ∃ ca pool, w.ReadFile "certs/ca.crt" = Except.ok ca ∧ c.RootCAs = some pool ∧
        pool.certs ≠ [] ∧
        ∀ cert, cert ∈ pool.certs ↔
          ∃ b ∈ w.pemBlocks ca, b.blockType = "CERTIFICATE" ∧ b.Headers = [] ∧
            w.ParseCertificate b.Bytes = Except.ok cert) ∧
    (((∃ e, w.ReadFile "certs/ca.crt" = Except.error e) ∨
        ∃ ca, w.ReadFile "certs/ca.crt" = Except.ok ca ∧
          ∀ b ∈ w.pemBlocks ca, ∀ cert,
            ¬ (b.blockType = "CERTIFICATE" ∧ b.Headers = [] ∧
              w.ParseCertificate b.Bytes = Except.ok cert)) →
      (runServer w).status = Status.exited 1 ∧ (∀ c, Event.NewTLS c ∉ (runServer w).trace) ∧
      (runClient w).status = Status.exited 1 ∧ ∀ c, Event.NewTLS c ∉ (runClient w).trace) ∧
    (∀ cert ca, w.LoadX509KeyPair "certs/server.crt" "certs/server.key" = Except.ok cert →
      w.ReadFile "certs/ca.crt" = Except.ok ca →
      (∃ b ∈ w.pemBlocks ca, b.blockType = "CERTIFICATE" ∧ b.Headers = [] ∧
        ∃ x, w.ParseCertificate b.Bytes = Except.ok x) →
      ∃ c pool, Event.NewTLS c ∈ (runServer w).trace ∧
        Event.NewServer { config := c } ∈ (runServer w).trace ∧
        c.ClientCAs = some pool ∧ pool.certs ≠ [] ∧
        ∀ x, (∃ b ∈ w.pemBlocks ca, b.blockType = "CERTIFICATE" ∧ b.Headers = [] ∧
          w.ParseCertificate b.Bytes = Except.ok x) → x ∈ pool.certs) ∧
    (∀ cert ca, w.LoadX509KeyPair "certs/client.crt" "certs/client.key" = Except.ok cert →
      w.ReadFile "certs/ca.crt" = Except.ok ca →
      (∃ b ∈ w.pemBlocks ca, b.blockType = "CERTIFICATE" ∧ b.Headers = [] ∧
        ∃ x, w.ParseCertificate b.Bytes = Except.ok x) →
      ∃ c pool, Event.NewTLS c ∈ (runClient w).trace ∧
        Event.NewClient "localhost:50051" { config := c } ∈ (runClient w).trace ∧
        c.RootCAs = some pool ∧ pool.certs ≠ [] ∧
        ∀ x, (∃ b ∈ w.pemBlocks ca, b.blockType = "CERTIFICATE" ∧ b.Headers = [] ∧
          w.ParseCertificate b.Bytes = Except.ok x) → x ∈ pool.certs) := by
  refine ⟨?_, ?_, ?_, ?_, ?_⟩
  · intro c hc
    obtain ⟨cert, ca, _, h2, h3, hcfg, _⟩ := runServer_afterLoad w _ hc rfl
    refine ⟨ca, (CertPool.AppendCertsFromPEM w x509.NewCertPool ca).1, h2, ?_, ?_, ?_⟩
    · rw [hcfg c rfl]; rfl
    · exact appendBlocks_ok_ne_nil _ _ _ h3
    · exact mem_AppendCertsFromPEM w ca
  · intro c hc
    obtain ⟨cert, ca, _, h2, h3, hcfg, _⟩ := runClient_afterLoad w _ hc rfl
    refine ⟨ca, (CertPool.AppendCertsFromPEM w x509.NewCertPool ca).1, h2, ?_, ?_, ?_⟩
    · rw [hcfg c rfl]; rfl
    · exact appendBlocks_ok_ne_nil _ _ _ h3
    · exact mem_AppendCertsFromPEM w ca
  · intro hfail
    have hcases : (∃ e, w.ReadFile "certs/ca.crt" = Except.error e) ∨
        ∃ ca, w.ReadFile "certs/ca.crt" = Except.ok ca ∧
          (CertPool.AppendCertsFromPEM w x509.NewCertPool ca).2 = false := by
      rcases hfail with he | ⟨ca, h2, hnone⟩
      · exact Or.inl he
      · exact Or.inr ⟨ca, h2, AppendCertsFromPEM_none w ca hnone⟩
    have hserver : (runServer w).status = Status.exited 1 ∧
        ∀ c, Event.NewTLS c ∉ (runServer w).trace := by
      rcases h1 : w.LoadX509KeyPair "certs/server.crt" "certs/server.key" with e | cert
      · rw [runServer_keyPair_error w e h1]; simp
      · rcases hcases with ⟨e, h2⟩ | ⟨ca, h2, h3⟩
        · rw [runServer_readFile_error w cert e h1 h2]; simp
        · rw [runServer_append_failed w cert ca h1 h2 h3]; simp
    have hclient : (runClient w).status = Status.exited 1 ∧
        ∀ c, Event.NewTLS c ∉ (runClient w).trace := by
      rcases h1 : w.LoadX509KeyPair "certs/client.crt" "certs/client.key" with e | cert
      · rw [runClient_keyPair_error w e h1]; simp
      · rcases hcases with ⟨e, h2⟩ | ⟨ca, h2, h3⟩
        · rw [runClient_readFile_error w cert e h1 h2]; simp
        · rw [runClient_append_failed w cert ca h1 h2 h3]; simp
    exact ⟨hserver.1, hserver.2, hclient.1, hclient.2⟩
  · intro cert ca h1 h2 hsome
    have h3 := AppendCertsFromPEM_some w ca hsome
    obtain ⟨rest, htr, _⟩ := runServer_loaded w cert ca h1 h2 h3
    refine ⟨serverConfig cert (CertPool.AppendCertsFromPEM w x509.NewCertPool ca).1,
      (CertPool.AppendCertsFromPEM w x509.NewCertPool ca).1, ?_, ?_, rfl,
      appendBlocks_ok_ne_nil _ _ _ h3, fun x hx => (mem_AppendCertsFromPEM w ca x).2 hx⟩
    · rw [htr]; simp [serverSetup]
    · rw [htr]; simp [serverSetup]
  · intro cert ca h1 h2 hsome
    have h3 := AppendCertsFromPEM_some w ca hsome
    obtain ⟨rest, htr, _⟩ := runClient_loaded w cert ca h1 h2 h3
    refine ⟨clientConfig cert (CertPool.AppendCertsFromPEM w x509.NewCertPool ca).1,
      (CertPool.AppendCertsFromPEM w x509.NewCertPool ca).1, ?_, ?_, rfl,
      appendBlocks_ok_ne_nil _ _ _ h3, fun x hx => (mem_AppendCertsFromPEM w ca x).2 hx⟩
    · rw [htr]; simp [clientSetup]
    · rw [htr]; simp [clientSetup]

/-- C6, amended, at the good world, whose CA file holds two certificates in
blocks without headers, and at worlds whose CA file is missing or empty: both
programs build their configuration with a pool that holds both certificates,
and without a certificate both programs exit with status 1. -/
theorem trust_store_nonempty_witness :
    (∃ ca pool, goodWorld.ReadFile "certs/ca.crt" = Except.ok ca ∧
      (serverConfig sampleCert { certs := [{ Raw := [1] }, { Raw := [3] }] }).ClientCAs = some pool ∧
      pool.certs ≠ [] ∧
      ∀ cert, cert ∈ pool.certs ↔
        ∃ b ∈ goodWorld.pemBlocks ca, b.blockType = "CERTIFICATE" ∧ b.Headers = [] ∧
          goodWorld.ParseCertificate b.Bytes = Except.ok cert) ∧
    (∃ ca pool, goodWorld.ReadFile "certs/ca.crt" = Except.ok ca ∧
      (clientConfig sampleCert { certs := [{ Raw := [1] }, { Raw := [3] }] }).RootCAs = some pool ∧
      pool.certs ≠ [] ∧
      ∀ cert, cert ∈ pool.certs ↔
        ∃ b ∈ goodWorld.pemBlocks ca, b.blockType = "CERTIFICATE" ∧ b.Headers = [] ∧
          goodWorld.ParseCertificate b.Bytes = Except.ok cert) ∧
    (runServer noCAFileWorld).status = Status.exited 1 ∧
    (runClient emptyCAWorld).status = Status.exited 1 ∧
    (∃ c pool, Event.NewTLS c ∈ (runServer goodWorld).trace ∧
      Event.NewServer { config := c } ∈ (runServer goodWorld).trace ∧
      c.ClientCAs = some pool ∧ pool.certs ≠ [] ∧
      ∀ x, (∃ b ∈ goodWorld.pemBlocks [45, 45], b.blockType = "CERTIFICATE" ∧ b.Headers = [] ∧
        goodWorld.ParseCertificate b.Bytes = Except.ok x) → x ∈ pool.certs) ∧
    (∃ c pool, Event.NewTLS c ∈ (runClient goodWorld).trace ∧
      Event.NewClient "localhost:50051" { config := c } ∈ (runClient goodWorld).trace ∧
      c.RootCAs = some pool ∧ pool.certs ≠ [] ∧
      ∀ x, (∃ b ∈ goodWorld.pemBlocks [45, 45], b.blockType = "CERTIFICATE" ∧ b.Headers = [] ∧
        goodWorld.ParseCertificate b.Bytes = Except.ok x) → x ∈ pool.certs) :=
  ⟨(trust_store_nonempty goodWorld).1 _ (by decide),
    (trust_store_nonempty goodWorld).2.1 _ (by decide),
    ((trust_store_nonempty noCAFileWorld).2.2.1
      (Or.inl ⟨errorf "open certs/ca.crt: no such file or directory", rfl⟩)).1,
    ((trust_store_nonempty emptyCAWorld).2.2.1
      (Or.inr ⟨[45, 45], rfl, fun _ hb => absurd hb (List.not_mem_nil _)⟩)).2.2.1,
    (trust_store_nonempty goodWorld).2.2.2.1 sampleCert [45, 45] rfl rfl
      ⟨_, List.mem_cons_self _ _, rfl, rfl, _, rfl⟩,
    (trust_store_nonempty goodWorld).2.2.2.2 sampleCert [45, 45] rfl rfl
      ⟨_, List.mem_cons_self _ _, rfl, rfl, _, rfl⟩⟩

/-! ## Release on exit -/

/-- C8: in the world where the call gets no response within the deadline, the
client has created its connection and its context and issued the call, exits
with status 1, and calls neither `cancel` nor `Close` on the connection; in the
good world it calls both, `cancel` first, and exits with status 0. -/
theorem failed_call_skips_deferred_release :
    (runClient deadlineWorld).status = Status.exited 1 ∧
    (∃ conn, Event.SayHello conn callContext { Name := "mTLS World" }
      ∈ (runClient deadlineWorld).trace) ∧
    (∀ conn, Event.Close conn ∉ (runClient deadlineWorld).trace) ∧
    (∀ ctx, Event.cancel ctx ∉ (runClient deadlineWorld).trace) ∧
    (runClient goodWorld).status = Status.exited 0 ∧
    ∃ conn, (runClient goodWorld).trace.drop 10 = [Event.cancel callContext, Event.Close conn] := by
  have hrun := runClient_call_error deadlineWorld sampleCert [45, 45]
    { target := "localhost:50051",
      creds := { config := (clientConfig sampleCert
        (CertPool.AppendCertsFromPEM deadlineWorld x509.NewCertPool [45, 45]).1) } }
    (errorf "rpc error: code = DeadlineExceeded desc = context deadline exceeded")
    rfl rfl (by decide) rfl rfl
  refine ⟨?_, ?_, ?_, ?_, by decide,
    ⟨{ target := "localhost:50051",
       creds := { config := clientConfig sampleCert { certs := [{ Raw := [1] }, { Raw := [3] }] } } },
      by decide⟩⟩
  · rw [hrun]
  · exact ⟨{ target := "localhost:50051",
             creds := { config :=
               clientConfig sampleCert { certs := [{ Raw := [1] }, { Raw := [3] }] } } },
      by decide⟩
  · intro conn
    rw [hrun]
    simp [clientSetup, clientCall]
  · intro ctx
    rw [hrun]
    simp [clientSetup, clientCall]

end MTLS
